import Mathlib

/-!
Verification of the kubesleuth-operator diagnosis engine.

This file gives a shallow embedding, in Lean 4, of the analysis logic of the
operator (files internal/controller/podsleuth_controller.go and
internal/controller/log_analysis.go, plus the API types of
api/v1alpha1/podsleuth_types.go), and proves properties of that embedding.

Modelling conventions:
- Go strings are Lean String values; strings.Contains, strings.ToLower and
  strings.Join are modelled by executable functions on the underlying
  character lists.
- Go int32 values (confidences, restart counts, exit codes, priorities) are
  modelled as Int; Go times (time.Time, metav1.Time) are modelled as Int
  instants, with time.Duration added as an Int offset.
- External effects (the Kubernetes log stream, the secret store, the AI HTTP
  call and the JSON parse of its response) are passed in as explicit outcome
  values (Except results), so that the control flow around them is embedded
  exactly while the I/O itself stays abstract.
- Compiled regular expressions are modelled as Boolean matcher functions; the
  ten built-in default patterns are embedded as explicit matchers for their
  literal alternations (the source regexes are case-insensitive alternations
  of literal substrings, with dot-star separators in two Kafka rules and one
  database rule).
- The in-memory analysis cache (a Go map guarded by a RWMutex) is modelled as
  an association list; map assignment is modelled by prepending, and lookup
  takes the most recent binding, which agrees with Go map semantics for the
  keys involved.
-/

/-! ### String helpers (strings.Contains and strings.ToLower) -/

/-- Does the list contain the given contiguous sublist? This is the semantics
of Go strings.Contains on the character level: the needle is a prefix of some
suffix of the haystack. -/
def containsSub (needle : List Char) : List Char → Bool
  | [] => needle.isEmpty
  | c :: rest => needle.isPrefixOf (c :: rest) || containsSub needle rest

/-- Go strings.Contains. -/
def strContains (s sub : String) : Bool :=
  containsSub sub.data s.data

/-- Go strings.ToLower (the inputs considered here are ASCII, where
Char.toLower agrees with the Go function). -/
def strToLower (s : String) : String :=
  ⟨s.data.map Char.toLower⟩

/-- The suffix that remains after the first occurrence of the needle, if the
needle occurs at all. Used to model regex fragments of the form a.*b: such a
fragment matches a line exactly when b occurs somewhere after the end of the
first occurrence of a. -/
def dropAfterFirst (needle : List Char) : List Char → Option (List Char)
  | [] => if needle.isEmpty then some [] else none
  | c :: rest =>
    if needle.isPrefixOf (c :: rest) then some ((c :: rest).drop needle.length)
    else dropAfterFirst needle rest

/-- Matcher for a case-insensitive alternation of literal substrings, such as
the regex (?i)(connection refused|connection reset|connection closed). -/
def matchAny (alts : List String) (line : String) : Bool :=
  let l := strToLower line
  alts.any (fun a => strContains l a)

/-- Matcher for a case-insensitive fragment a.*b (two literals in order). -/
def matchSeq2 (a b : String) (line : String) : Bool :=
  match dropAfterFirst a.data (strToLower line).data with
  | some rest => containsSub b.data rest
  | none => false

/-- Matcher for a case-insensitive fragment a.*b.*c (three literals in order). -/
def matchSeq3 (a b c : String) (line : String) : Bool :=
  match dropAfterFirst a.data (strToLower line).data with
  | some rest1 =>
    match dropAfterFirst b.data rest1 with
    | some rest2 => containsSub c.data rest2
    | none => false
  | none => false

/-! ### Decimal rendering

The Go code builds cache keys with fmt.Sprintf("%s/%s/%s/%d", ...); the Lean
embedding renders the %d verb with Int.repr. The lemmas below show that the
decimal rendering of a natural number is injective, by exhibiting the decimal
evaluation map as a left inverse. -/

/-- Decimal digits of a natural number, most significant first, as characters;
this is what Nat.toDigits 10 produces (proved below). -/
def natDigits (n : Nat) : List Char :=
  if _h : n < 10 then [Nat.digitChar n]
  else natDigits (n / 10) ++ [Nat.digitChar (n % 10)]
  decreasing_by exact Nat.div_lt_self (by omega) (by omega)

/-- Evaluation of a most-significant-first character list as a decimal
number. -/
def valDigits (l : List Char) : Nat :=
  l.foldl (fun a c => a * 10 + (c.toNat - 48)) 0

/-! ### Kubernetes pod model (consumed corev1 snapshot) -/

/-- corev1.ContainerStateWaiting. -/
structure ContainerStateWaiting where
  reason : String := ""
  message : String := ""
  deriving DecidableEq

/-- corev1.ContainerStateTerminated (the fields the controller reads). -/
structure ContainerStateTerminated where
  exitCode : Int := 0
  reason : String := ""
  message : String := ""
  deriving DecidableEq

/-- corev1.ContainerState: at most one of waiting, terminated, running is
populated; the running variant carries no data the controller reads, so it is
a Bool here. -/
structure ContainerState where
  waiting : Option ContainerStateWaiting := none
  terminated : Option ContainerStateTerminated := none
  running : Bool := false
  deriving DecidableEq

/-- corev1.ContainerStatus (the fields the controller reads). -/
structure ContainerStatus where
  name : String := ""
  ready : Bool := false
  restartCount : Int := 0
  state : ContainerState := {}
  lastTerminationState : ContainerState := {}
  deriving DecidableEq

/-- corev1.PodCondition (the fields the controller reads). -/
structure CoreV1PodCondition where
  ctype : String := ""
  status : String := ""
  reason : String := ""
  message : String := ""
  deriving DecidableEq

/-- The slice of a corev1.Pod the analysis code reads. -/
structure Pod where
  namespaceName : String := ""
  name : String := ""
  uid : String := ""
  phase : String := ""
  specContainerNames : List String := []
  containerStatuses : List ContainerStatus := []
  initContainerStatuses : List ContainerStatus := []
  conditions : List CoreV1PodCondition := []
  deriving DecidableEq

/-! ### API result types (api/v1alpha1/podsleuth_types.go) -/

/-- v1alpha1.PatternAnalysisResult. -/
structure PatternAnalysisResult where
  matchedPattern : String := ""
  priority : Int := 0
  rootCause : String := ""
  confidence : Int := 0
  error : String := ""
  deriving DecidableEq

/-- v1alpha1.AIAnalysisResult. -/
structure AIAnalysisResult where
  model : String := ""
  rootCause : String := ""
  confidence : Int := 0
  error : String := ""
  deriving DecidableEq

/-- v1alpha1.LogAnalysisResult. Times are Int instants; the Go zero value of
metav1.Time is modelled as 0, and the optional CacheExpiresAt pointer as an
Option. -/
structure LogAnalysisResult where
  rootCause : String := ""
  confidence : Int := 0
  method : String := ""
  methods : List String := []
  matchedPattern : String := ""
  priority : Int := 0
  model : String := ""
  patternResult : Option PatternAnalysisResult := none
  aiResult : Option AIAnalysisResult := none
  errorLines : List String := []
  analyzedAt : Int := 0
  cachedAt : Int := 0
  cacheExpiresAt : Option Int := none
  deriving DecidableEq

/-- v1alpha1.ContainerError. -/
structure ContainerError where
  containerName : String := ""
  ctype : String := ""
  state : String := ""
  reason : String := ""
  message : String := ""
  exitCode : Option Int := none
  restartCount : Int := 0
  ready : Bool := false
  deriving DecidableEq

/-- v1alpha1.PodCondition (the status copy of a core condition). -/
structure PodConditionOut where
  ctype : String := ""
  status : String := ""
  reason : String := ""
  message : String := ""
  deriving DecidableEq

/-- corev1.SecretKeySelector (name of the secret and key within it). -/
structure SecretKeySelector where
  name : String := ""
  key : String := ""
  deriving DecidableEq

/-- v1alpha1.ErrorPattern. The compiled field is the outcome of
regexp.Compile on the Pattern text: some matcher on success, none when the
regex text does not compile (the regex engine itself stays external). -/
structure ErrorPattern where
  name : String := ""
  pattern : String := ""
  compiled : Option (String → Bool) := none
  rootCause : String := ""
  priority : Int := 0

/-- v1alpha1.LogAnalysisConfig (the fields analyzeLogs and its helpers read). -/
structure LogAnalysisConfig where
  enabled : Bool := false
  method : String := ""
  methods : List String := []
  cacheEnabled : Option Bool := none
  cacheTTL : Option Int := none
  linesToAnalyze : Option Int := none
  filterErrorsOnly : Option Bool := none
  patterns : List ErrorPattern := []
  aiEndpoint : String := ""
  aiFormat : String := ""
  aiModel : String := ""
  aiAPIKey : Option SecretKeySelector := none
  aiAuthHeader : String := ""
  aiAuthPrefix : String := ""

/-! ### Cache (podsleuth_controller.go: getCacheKey, getCachedAnalysis,
setCachedAnalysis) -/

/-- The foldl over a status slice of the Go loop
for cs in statuses: if cs.RestartCount > maxRestartCount, update. -/
def maxRestartFold (statuses : List ContainerStatus) (init : Int) : Int :=
  statuses.foldl (fun m cs => if cs.restartCount > m then cs.restartCount else m) init

/-- The highest restart count over containers and init containers, starting
from 0, exactly as computed inside getCacheKey and setCachedAnalysis. -/
def podMaxRestartCount (pod : Pod) : Int :=
  maxRestartFold pod.initContainerStatuses (maxRestartFold pod.containerStatuses 0)

/-- getCacheKey: fmt.Sprintf("%s/%s/%s/%d", namespace, name, UID,
maxRestartCount). -/
def getCacheKey (pod : Pod) : String :=
  pod.namespaceName ++ ("/") ++ pod.name ++ ("/") ++ pod.uid ++ ("/") ++
    (podMaxRestartCount pod).repr

/-- CachedAnalysisResult (podsleuth_controller.go). -/
structure CachedAnalysisResult where
  podUID : String := ""
  podNamespace : String := ""
  podName : String := ""
  restartCount : Int := 0
  result : LogAnalysisResult := {}
  cachedAt : Int := 0
  expiresAt : Int := 0
  deriving DecidableEq

/-- The analysisCache map, as an association list keyed by cache key. -/
abbrev AnalysisCache := List (String × CachedAnalysisResult)

/-- getCachedAnalysis: look the pod key up and miss when the entry has
expired (time.Now().After(ExpiresAt), that is now > expiresAt). The Go
function only reads the map; it never deletes. -/
def getCachedAnalysis (cache : AnalysisCache) (pod : Pod) (now : Int) :
    Option LogAnalysisResult :=
  match cache.lookup (getCacheKey pod) with
  | none => none
  | some cached => if now > cached.expiresAt then none else some cached.result

/-- setCachedAnalysis: stamp CachedAt and CacheExpiresAt onto the result and
store it under the pod key (map assignment modelled by prepending). -/
def setCachedAnalysis (cache : AnalysisCache) (pod : Pod)
    (result : LogAnalysisResult) (cacheTTL : Int) (now : Int) : AnalysisCache :=
  let maxRestartCount := podMaxRestartCount pod
  let expiresAt := now + cacheTTL
  let result' := { result with cachedAt := now, cacheExpiresAt := some expiresAt }
  (getCacheKey pod,
    { podUID := pod.uid, podNamespace := pod.namespaceName, podName := pod.name,
      restartCount := maxRestartCount, result := result',
      cachedAt := now, expiresAt := expiresAt }) :: cache

/-! ### Pattern analyzer (log_analysis.go: getDefaultPatterns,
analyzeWithPatterns) -/

/-- DefaultPattern (log_analysis.go): a built-in rule with its compiled
regex, modelled as a matcher function. -/
structure DefaultPattern where
  name : String := ""
  pattern : String → Bool := fun _ => false
  rootCause : String := ""
  priority : Int := 0

/-- PatternMatch (log_analysis.go): a rule as used during matching. -/
structure PatternMatch where
  name : String := ""
  pattern : String → Bool := fun _ => false
  rootCause : String := ""
  priority : Int := 0

/-- getDefaultPatterns: the ten built-in rules, with their regexes embedded
as matchers for the corresponding case-insensitive alternations. -/
def getDefaultPatterns : List DefaultPattern :=
  [ { name := ("ConnectionRefused"),
      pattern := matchAny ["connection refused", "connection reset", "connection closed"],
      rootCause := ("Connection refused - service may be down or unreachable"),
      priority := 10 },
    { name := ("ConnectionTimeout"),
      pattern := matchAny ["connection timeout", "timeout", "timed out"],
      rootCause := ("Connection timeout - service may be slow or unreachable"),
      priority := 10 },
    { name := ("DialTCP"),
      pattern := matchAny ["dial tcp", "failed to connect"],
      rootCause := ("Network connection failed - unable to reach service"),
      priority := 10 },
    { name := ("ServiceUnavailable"),
      pattern := matchAny ["service unavailable", "503", "503 service unavailable"],
      rootCause := ("Service unavailable - backend service is down or overloaded"),
      priority := 10 },
    { name := ("DNSError"),
      pattern := matchAny ["no such host", "name resolution failed", "dns error", "unknown host"],
      rootCause := ("DNS resolution failed - service name cannot be resolved"),
      priority := 10 },
    { name := ("KafkaBrokerError"),
      pattern := matchAny ["broker not available", "leader not available", "connection to node"],
      rootCause := ("Kafka service is down or unreachable"),
      priority := 15 },
    { name := ("KafkaConnectionError"),
      pattern := fun line => matchSeq2 ("kafka") ("connection") line ||
        matchSeq2 ("kafka") ("timeout") line || matchSeq2 ("kafka") ("error") line,
      rootCause := ("Kafka connection error - broker may be down"),
      priority := 12 },
    { name := ("DatabaseConnectionError"),
      pattern := fun line => matchAny ["connection pool exhausted", "too many connections"] line ||
        matchSeq3 ("database") ("connection") ("failed") line,
      rootCause := ("Database connection failed - connection pool may be exhausted"),
      priority := 10 },
    { name := ("HTTP502"),
      pattern := matchAny ["502 bad gateway", "bad gateway"],
      rootCause := ("502 Bad Gateway - upstream service is unavailable"),
      priority := 10 },
    { name := ("HTTP503"),
      pattern := matchAny ["503 service unavailable"],
      rootCause := ("503 Service Unavailable - service is temporarily unavailable"),
      priority := 10 } ]

/-- The compile loop over caller-supplied patterns: invalid regexes are
skipped. -/
def compileCustomPatterns (patterns : List ErrorPattern) : List PatternMatch :=
  patterns.foldl (fun acc cp =>
    match cp.compiled with
    | none => acc
    | some regex =>
      acc ++ [{ name := cp.name, pattern := regex,
                rootCause := cp.rootCause, priority := cp.priority }]) []

/-- The rule set analyzeWithPatterns works with: caller patterns when any
compile, with a fallback to the defaults when none compile or none were
supplied. -/
def patternsFor (config : LogAnalysisConfig) : List PatternMatch :=
  let defaults := getDefaultPatterns.map (fun dp =>
    { name := dp.name, pattern := dp.pattern,
      rootCause := dp.rootCause, priority := dp.priority : PatternMatch })
  if !config.patterns.isEmpty then
    let ps := compileCustomPatterns config.patterns
    if ps.isEmpty then defaults else ps
  else defaults

/-- One insertion step of a stable sort by priority, highest first: the new
element goes before the first strictly lower priority, after every element of
priority at least its own. -/
def insertByPriority (p : PatternMatch) : List PatternMatch → List PatternMatch
  | [] => [p]
  | q :: rest =>
    if p.priority ≥ q.priority then p :: q :: rest else q :: insertByPriority p rest

/-- The sort.Slice call of analyzeWithPatterns, by priority descending. The
Go standard sort is not specified to be stable in general, but on the rule
sets at hand (at most twelve elements) it runs its insertion sort, which is
stable; the embedding uses a stable insertion sort accordingly. -/
def sortByPriorityDesc (l : List PatternMatch) : List PatternMatch :=
  l.foldr insertByPriority []

/-- The matching double loop of analyzeWithPatterns: scan lines top-down, for
each line try the sorted rules in order and stop at the first rule that
matches the line; every matching line is collected, and bestMatch is set at
the first match only. -/
def matchPatternLines (patterns : List PatternMatch) (logLines : List String) :
    List String × Option PatternMatch :=
  logLines.foldl (fun acc line =>
    match patterns.find? (fun p => p.pattern line) with
    | some p =>
      (acc.1 ++ [line], match acc.2 with | none => some p | some b => some b)
    | none => acc) ([], none)

/-- analyzeWithPatterns. The Go function returns (result, error) but has no
error-returning path, so the embedding returns an Option. -/
def analyzeWithPatterns (logLines : List String) (config : LogAnalysisConfig) :
    Option LogAnalysisResult :=
  let patterns := sortByPriorityDesc (patternsFor config)
  let scanned := matchPatternLines patterns logLines
  let matchedLines := scanned.1
  match scanned.2 with
  | none =>
    if logLines.length > 0 then
      some { rootCause := ("Unknown error detected in logs"), confidence := 30,
             errorLines := logLines.take (min 10 logLines.length),
             matchedPattern := "", priority := 0 }
    else none
  | some bestMatch =>
    let rootCause :=
      if bestMatch.rootCause = "" && matchedLines.length > 0 then matchedLines.headD ""
      else bestMatch.rootCause
    let confidence : Int :=
      if matchedLines.length ≥ 3 then 80
      else if matchedLines.length ≥ 2 then 65
      else 50
    some { rootCause := rootCause, confidence := confidence,
           errorLines := matchedLines, matchedPattern := bestMatch.name,
           priority := bestMatch.priority }

/-! ### Log fetch and filtering (log_analysis.go: getPodLogs,
filterErrorLines) -/

/-- The keyword list of filterErrorLines. -/
def errorKeywords : List String :=
  ["error", "err", "failed", "failure", "fatal", "panic",
   "exception", "warning", "warn", "critical", "alert"]

/-- filterErrorLines: keep a line when its lowercased text contains one of
the keywords (the Go inner loop breaks at the first hit, which is an any). -/
def filterErrorLines (lines : List String) : List String :=
  lines.filter (fun line =>
    let lowerLine := strToLower line
    errorKeywords.any (fun keyword => strContains lowerLine keyword))

/-- getPodLogs, with the container selection and the log stream abstracted
into the fetched outcome: on success, apply the FilterErrorsOnly filter,
which defaults to true when unset. -/
def getPodLogs (config : LogAnalysisConfig)
    (fetchedLogs : Except String (List String)) : Except String (List String) :=
  match fetchedLogs with
  | .error e => .error e
  | .ok allLines =>
    let filterErrorsOnly := match config.filterErrorsOnly with
      | none => true
      | some b => b
    if filterErrorsOnly then .ok (filterErrorLines allLines) else .ok allLines

/-! ### Result merging (log_analysis.go: mergeAnalysisResults,
deduplicateLines) -/

/-- deduplicateLines: keep the first occurrence of each line, in order. The
Go loop keeps a seen set alongside the result; since the result holds exactly
the seen lines, membership in the result stands in for the set. -/
def deduplicateLines (lines : List String) : List String :=
  lines.foldl (fun result line =>
    if result.contains line then result else result ++ [line]) []

/-- mergeAnalysisResults. Confidence precedence between a pattern and an AI
verdict; the (p + a) / 2 mean uses Int.tdiv, which truncates toward zero like
Go integer division. -/
def mergeAnalysisResults (patternResult : Option PatternAnalysisResult)
    (aiResult : Option AIAnalysisResult) (methods : List String)
    (errorLines : List String) : Option LogAnalysisResult :=
  let result : LogAnalysisResult :=
    { methods := methods, patternResult := patternResult, aiResult := aiResult,
      errorLines := deduplicateLines errorLines }
  match aiResult, patternResult with
  | some ai, some p =>
    if ai.confidence > 80 then
      some { result with rootCause := ai.rootCause, confidence := ai.confidence,
                         method := ("ai") }
    else if ai.confidence < 50 then
      some { result with rootCause := p.rootCause, confidence := p.confidence,
                         method := ("pattern") }
    else
      some { result with
               rootCause := ("[Pattern] ") ++ p.rootCause ++ (" | [AI] ") ++ ai.rootCause,
               confidence := (p.confidence + ai.confidence).tdiv 2,
               method := ("pattern+ai") }
  | some ai, none =>
    some { result with rootCause := ai.rootCause, confidence := ai.confidence,
                       method := ("ai") }
  | none, some p =>
    some { result with rootCause := p.rootCause, confidence := p.confidence,
                       method := ("pattern") }
  | none, none => none

/-! ### AI analyzer (log_analysis.go: analyzeWithAI and the confidence
heuristic calculateAIConfidence) -/

/-- The external outcomes an AI analysis run depends on: the secret fetch for
the API key, the HTTP POST (status code and body on transport success), and
the JSON parse of a 200 body (parseAIResponse output). -/
structure AIOracle where
  apiKey : Except String String := .ok ""
  http : Except String (Int × String) := .error ""
  parsed : Except String LogAnalysisResult := .error ""

/-- analyzeWithAI: fail when no endpoint is configured; fetch the key when a
secret is referenced; POST; non-200 statuses become an error carrying status
and body; parse the body; on success attach up to the first 20 input lines as
ErrorLines. -/
def analyzeWithAI (oracle : AIOracle) (logLines : List String)
    (config : LogAnalysisConfig) : Except String LogAnalysisResult :=
  if config.aiEndpoint = "" then .error ("aiEndpoint is required for AI analysis")
  else
    let keyStep : Except String String :=
      match config.aiAPIKey with
      | none => .ok ""
      | some _ =>
        match oracle.apiKey with
        | .error e => .error (("failed to get API key: ") ++ e)
        | .ok k => .ok k
    match keyStep with
    | .error e => .error e
    | .ok _ =>
      match oracle.http with
      | .error e => .error (("failed to make AI request: ") ++ e)
      | .ok (statusCode, body) =>
        if statusCode ≠ 200 then
          .error (("AI endpoint returned status ") ++ statusCode.repr ++ (": ") ++ body)
        else
          match oracle.parsed with
          | .error e => .error (("failed to parse AI response: ") ++ e)
          | .ok result =>
            .ok { result with errorLines := logLines.take (min 20 logLines.length) }

/-- The word lists of calculateAIConfidence (uncertainty indicators). -/
def uncertainWords : List String :=
  ["might", "maybe", "possibly", "perhaps", "unclear",
   "not sure", "could be", "may be", "unsure", "uncertain",
   "difficult to determine", "hard to say"]

/-- The word lists of calculateAIConfidence (certainty indicators). -/
def certaintyWords : List String :=
  ["error:", "failed:", "exception:", "timeout:", "connection refused",
   "out of memory", "disk full", "permission denied", "not found",
   "crashed", "terminated", "killed", "panic:", "fatal:"]

/-- The word lists of calculateAIConfidence (structure indicators). -/
def structureIndicators : List String :=
  ["\n-", "\n*", "\n1.", "\n2.", "line ", "at line", "error at"]

/-- The word lists of calculateAIConfidence (non-answer phrases). -/
def genericPhrases : List String :=
  ["i cannot", "i can\x27t", "i don\x27t have", "no information",
   "please provide", "need more", "insufficient"]

/-- The final range clamp of calculateAIConfidence: above 100 becomes 100,
below 10 becomes 10. -/
def clampConfidence (confidence : Int) : Int :=
  if confidence > 100 then 100 else if confidence < 10 then 10 else confidence

/-- calculateAIConfidence: base 60, adjusted for response length (Go len
counts bytes, modelled by utf8ByteSize), uncertainty words, certainty words
(+5 each, clamped at 100 inside the branch), structure indicators, and
non-answer phrases, with a final clamp to the range 10 to 100. -/
def calculateAIConfidence (rootCause : String) : Int :=
  let confidence : Int := 60
  let length := rootCause.utf8ByteSize
  let confidence :=
    if length > 200 then confidence + 20
    else if length > 100 then confidence + 15
    else if length > 50 then confidence + 10
    else if length < 20 then confidence - 20
    else confidence
  let lowerRootCause := strToLower rootCause
  let confidence :=
    if uncertainWords.any (fun word => strContains lowerRootCause word) then confidence - 15
    else confidence
  let certaintyCount : Int :=
    Int.ofNat ((certaintyWords.filter (fun word => strContains lowerRootCause word)).length)
  let confidence :=
    if certaintyCount > 0 then
      let c := confidence + certaintyCount * 5
      if c > 100 then 100 else c
    else confidence
  let confidence :=
    if structureIndicators.any (fun ind => strContains lowerRootCause ind) then confidence + 8
    else confidence
  let confidence :=
    if genericPhrases.any (fun phrase => strContains lowerRootCause phrase) then confidence - 25
    else confidence
  clampConfidence confidence

/-! ### The pipeline (log_analysis.go: analyzeLogs) -/

/-- The method-list resolution at the top of analyzeLogs: the Methods list if
nonempty, else the deprecated single Method field if set, else pattern. -/
def resolveMethods (config : LogAnalysisConfig) : List String :=
  let methods := config.methods
  let methods := if methods.isEmpty && config.method ≠ "" then [config.method] else methods
  let methods := if methods.isEmpty then [("pattern")] else methods
  methods

/-- One iteration of the method loop of analyzeLogs, transforming the
(patternResult, aiResult, errorLines) accumulator. The Go pattern branch has
an error arm, but analyzeWithPatterns has no error-returning path, so only
its result arm is reachable; a failing AI call is stored as an AIAnalysisResult
whose Error field carries the message, and contributes no error lines. -/
def methodStep (oracle : AIOracle) (logLines : List String)
    (config : LogAnalysisConfig)
    (acc : Option PatternAnalysisResult × Option AIAnalysisResult × List String)
    (method : String) :
    Option PatternAnalysisResult × Option AIAnalysisResult × List String :=
  let (patternResult, aiResult, errorLines) := acc
  if method = ("pattern") then
    match analyzeWithPatterns logLines config with
    | some result =>
      (some { matchedPattern := result.matchedPattern, priority := result.priority,
              rootCause := result.rootCause, confidence := result.confidence },
       aiResult, errorLines ++ result.errorLines)
    | none => (patternResult, aiResult, errorLines)
  else if method = ("ai") then
    match analyzeWithAI oracle logLines config with
    | .error e =>
      (patternResult, some { error := ("AI analysis failed: ") ++ e }, errorLines)
    | .ok result =>
      (patternResult,
       some { model := result.model, rootCause := result.rootCause,
              confidence := result.confidence },
       errorLines ++ result.errorLines)
  else acc

/-- The full method loop of analyzeLogs. -/
def runMethods (oracle : AIOracle) (logLines : List String)
    (config : LogAnalysisConfig) (methods : List String) :
    Option PatternAnalysisResult × Option AIAnalysisResult × List String :=
  methods.foldl (methodStep oracle logLines config) (none, none, [])

/-- The AI verdict the method loop stores for one ai run: the error text on
failure, the model, root cause and confidence on success. -/
def aiVerdictOf (oracle : AIOracle) (logLines : List String)
    (config : LogAnalysisConfig) : AIAnalysisResult :=
  match analyzeWithAI oracle logLines config with
  | .error e => { error := ("AI analysis failed: ") ++ e }
  | .ok result =>
    { model := result.model, rootCause := result.rootCause,
      confidence := result.confidence }

/-- The pattern verdict the method loop stores for one pattern run. -/
def patternVerdictOf (logLines : List String) (config : LogAnalysisConfig) :
    Option PatternAnalysisResult :=
  match analyzeWithPatterns logLines config with
  | some result =>
    some { matchedPattern := result.matchedPattern, priority := result.priority,
           rootCause := result.rootCause, confidence := result.confidence }
  | none => none

/-- analyzeLogs: nothing when disabled or unset; resolve methods; fetch and
filter logs (failure aborts with a wrapped error before any method runs);
nothing when no line remains; run the methods in order; merge; stamp
AnalyzedAt. -/
def analyzeLogs (config : Option LogAnalysisConfig)
    (fetchedLogs : Except String (List String)) (oracle : AIOracle) (now : Int) :
    Except String (Option LogAnalysisResult) :=
  match config with
  | none => .ok none
  | some config =>
    if !config.enabled then .ok none
    else
      let methods := resolveMethods config
      match getPodLogs config fetchedLogs with
      | .error e => .error (("failed to get pod logs: ") ++ e)
      | .ok logLines =>
        if logLines.isEmpty then .ok none
        else
          let ran := runMethods oracle logLines config methods
          match mergeAnalysisResults ran.1 ran.2.1 methods ran.2.2 with
          | none => .ok none
          | some finalResult => .ok (some { finalResult with analyzedAt := now })

/-! ### Status investigator (podsleuth_controller.go:
investigateContainerStatus, investigatePodFailure) -/

/-- investigateContainerStatus: read the current state (waiting wins, then
terminated with a synthesized message when the terminated message is empty,
then running with a readiness-probe reason when not ready), backfill from the
last termination state for crash loops, and fall back to generic reasons. -/
def investigateContainerStatus (containerStatus : ContainerStatus)
    (containerType : String) : ContainerError :=
  let e0 : ContainerError :=
    { containerName := containerStatus.name, ctype := containerType,
      ready := containerStatus.ready, restartCount := containerStatus.restartCount }
  let e1 :=
    match containerStatus.state.waiting with
    | some w => { e0 with state := ("waiting"), reason := w.reason, message := w.message }
    | none =>
      match containerStatus.state.terminated with
      | some t =>
        let e := { e0 with state := ("terminated"), reason := t.reason,
                           message := t.message, exitCode := some t.exitCode }
        if e.message = "" then
          match e.exitCode with
          | some code =>
            { e with message := ("Container terminated with reason \x27") ++ e.reason ++
                ("\x27 (exit code: ") ++ code.repr ++ (")") }
          | none =>
            { e with message := ("Container terminated with reason \x27") ++ e.reason ++ ("\x27") }
        else e
      | none =>
        if containerStatus.state.running then
          if !containerStatus.ready then
            { e0 with state := ("running"), reason := ("ReadinessProbeFailed"),
                      message := ("Container is running but readiness probe is failing") }
          else { e0 with state := ("running") }
        else e0
  let e2 :=
    match containerStatus.lastTerminationState.terminated with
    | some lt =>
      if e1.reason = "" || e1.reason = ("CrashLoopBackOff") then
        let eA :=
          if e1.message = "" then
            { e1 with message := ("Container exited with code ") ++ lt.exitCode.repr ++
                (": ") ++ lt.reason }
          else e1
        if eA.exitCode = none then { eA with exitCode := some lt.exitCode } else eA
      else e1
    | none => e1
  if e2.reason = "" then
    if e2.state = ("terminated") && e2.exitCode.isSome then
      { e2 with reason := ("ContainerTerminated"),
                message := if e2.message = "" then
                    ("Container terminated with exit code ") ++ (e2.exitCode.getD 0).repr
                  else e2.message }
    else if e2.state = ("waiting") then
      { e2 with reason := ("ContainerWaiting"),
                message := if e2.message = "" then ("Container is waiting to start")
                  else e2.message }
    else if !e2.ready then
      { e2 with reason := ("ContainerNotReady"),
                message := if e2.message = "" then ("Container is not ready") else e2.message }
    else e2
  else e2

/-- The per-container step of the first loop of investigatePodFailure,
over the (primaryReason, primaryMessage, containerErrors) accumulator. -/
def investigateContainerFold (acc : String × String × List ContainerError)
    (containerStatus : ContainerStatus) : String × String × List ContainerError :=
  let (primaryReason, primaryMessage, containerErrors) := acc
  let shouldInvestigate := !containerStatus.ready ||
    (match containerStatus.state.terminated with
     | some t => t.exitCode ≠ 0 || t.reason = ("Error")
     | none => false)
  if shouldInvestigate then
    let e := investigateContainerStatus containerStatus ("container")
    let containerErrors := containerErrors ++ [e]
    if primaryReason = "" then (e.reason, e.message, containerErrors)
    else if e.state ≠ ("running") && e.reason ≠ "" then
      if e.state = ("waiting") ||
         (e.state = ("terminated") && primaryReason = ("ReadinessProbeFailed")) then
        (e.reason, e.message, containerErrors)
      else (primaryReason, primaryMessage, containerErrors)
    else (primaryReason, primaryMessage, containerErrors)
  else acc

/-- The per-init-container step of the second loop of investigatePodFailure. -/
def investigateInitContainerFold (acc : String × String × List ContainerError)
    (initStatus : ContainerStatus) : String × String × List ContainerError :=
  let (primaryReason, primaryMessage, containerErrors) := acc
  if !initStatus.ready then
    let e := investigateContainerStatus initStatus ("initContainer")
    let containerErrors := containerErrors ++ [e]
    if primaryReason = "" then (e.reason, e.message, containerErrors)
    else (primaryReason, primaryMessage, containerErrors)
  else acc

/-- investigatePodFailure: investigate containers then init containers, copy
all conditions, and fall back to the Ready condition when no container gave a
reason. -/
def investigatePodFailure (pod : Pod) :
    String × String × List ContainerError × List PodConditionOut :=
  let acc1 := pod.containerStatuses.foldl investigateContainerFold ("", "", [])
  let acc2 := pod.initContainerStatuses.foldl investigateInitContainerFold acc1
  let conditions := pod.conditions.map (fun condition =>
    { ctype := condition.ctype, status := condition.status,
      reason := condition.reason, message := condition.message : PodConditionOut })
  let (primaryReason, primaryMessage, containerErrors) := acc2
  let fallback :=
    if primaryReason = "" then
      match pod.conditions.find? (fun condition =>
          condition.ctype = ("Ready") && condition.status = ("False")) with
      | some condition => (condition.reason, condition.message)
      | none => (primaryReason, primaryMessage)
    else (primaryReason, primaryMessage)
  (fallback.1, fallback.2, containerErrors, conditions)

/-! ### Concrete scenario inputs used by the claim theorems and witnesses -/

/-- A pod before a restart (no restarts observed). -/
def c1Pod1 : Pod :=
  { namespaceName := ("default"), name := ("web-0"), uid := ("uid-1234"),
    containerStatuses := [{ name := ("web"), ready := false, restartCount := 0 }] }

/-- The same pod identity after one container restart. -/
def c1Pod2 : Pod :=
  { namespaceName := ("default"), name := ("web-0"), uid := ("uid-1234"),
    containerStatuses := [{ name := ("web"), ready := false, restartCount := 1 }] }

/-- A diagnosis value for the cache round-trip witness. -/
def c3Diagnosis : LogAnalysisResult :=
  { rootCause := ("Connection refused - service may be down or unreachable"),
    confidence := 80, method := ("pattern") }

/-- The twelve-line scenario of the pattern claim: four lines match the
ConnectionRefused rule and one line matches the DatabaseConnectionError rule
(both rules have priority 10, ConnectionRefused is declared first). -/
def c5LogLines : List String :=
  [("error: connection refused by payment-svc"),
   ("request processed in 12ms"),
   ("error: connection refused by payment-svc (retry 1)"),
   ("cache warmed"),
   ("error: connection refused by payment-svc (retry 2)"),
   ("worker heartbeat ok"),
   ("error: too many connections to database backend"),
   ("metrics flushed"),
   ("error: connection refused by payment-svc (retry 3)"),
   ("queue depth 3"),
   ("listener ready"),
   ("shutdown hook armed")]

/-- The five lines the scan actually collects on c5LogLines (the four
ConnectionRefused lines plus the DatabaseConnectionError line, in line
order). -/
def c5MatchedLines : List String :=
  [("error: connection refused by payment-svc"),
   ("error: connection refused by payment-svc (retry 1)"),
   ("error: connection refused by payment-svc (retry 2)"),
   ("error: too many connections to database backend"),
   ("error: connection refused by payment-svc (retry 3)")]

/-- The four ConnectionRefused lines of c5LogLines, which the claim expects
as the whole evidence list. -/
def c5FourCRLines : List String :=
  [("error: connection refused by payment-svc"),
   ("error: connection refused by payment-svc (retry 1)"),
   ("error: connection refused by payment-svc (retry 2)"),
   ("error: connection refused by payment-svc (retry 3)")]

/-- Twenty-one distinct log lines that all pass the error filter and all
match the ConnectionRefused rule. -/
def c6LogLines : List String :=
  [("error: connection refused by svc 01"),
   ("error: connection refused by svc 02"),
   ("error: connection refused by svc 03"),
   ("error: connection refused by svc 04"),
   ("error: connection refused by svc 05"),
   ("error: connection refused by svc 06"),
   ("error: connection refused by svc 07"),
   ("error: connection refused by svc 08"),
   ("error: connection refused by svc 09"),
   ("error: connection refused by svc 10"),
   ("error: connection refused by svc 11"),
   ("error: connection refused by svc 12"),
   ("error: connection refused by svc 13"),
   ("error: connection refused by svc 14"),
   ("error: connection refused by svc 15"),
   ("error: connection refused by svc 16"),
   ("error: connection refused by svc 17"),
   ("error: connection refused by svc 18"),
   ("error: connection refused by svc 19"),
   ("error: connection refused by svc 20"),
   ("error: connection refused by svc 21")]

/-- A config that runs pattern first and then AI against a configured
endpoint. -/
def c4Config : LogAnalysisConfig :=
  { enabled := true, methods := [("pattern"), ("ai")],
    aiEndpoint := ("http://ai.internal/v1/analyze") }

/-- An AI oracle whose HTTP call answers 500 with a short body. -/
def c4Oracle : AIOracle :=
  { apiKey := .ok "", http := .ok (500, ("upstream exploded")), parsed := .error "" }

/-- A single log line for the HTTP 500 scenario; it passes the error filter
and matches the ConnectionRefused rule. -/
def c4LogLines : List String :=
  [("error: connection refused by payment-svc")]

/-- The container status of the OOMKilled scenario: one terminated container,
exit code 137, reason OOMKilled, empty message. -/
def c8Status : ContainerStatus :=
  { name := ("app"), ready := false, restartCount := 3,
    state := { terminated := some { exitCode := 137, reason := ("OOMKilled"), message := "" } } }

/-- The pod of the OOMKilled scenario. -/
def c8Pod : Pod :=
  { namespaceName := ("default"), name := ("app-0"), uid := ("uid-oom"),
    containerStatuses := [c8Status] }

/-- An enabled config with neither Methods nor the deprecated Method set. -/
def c9Config : LogAnalysisConfig :=
  { enabled := true }

/-- Lines none of which contains an error keyword (the filter drops all of
them). -/
def c10QuietLines : List String :=
  [("listener ready"), ("request processed in 12ms"), ("cache warmed")]

/-! ## Theorems -/

/-! ### Decimal rendering lemmas -/

theorem digitChar_toNat_sub (d : Nat) (h : d < 10) : (Nat.digitChar d).toNat - 48 = d := by
  interval_cases d <;> rfl

theorem valDigits_natDigits (n : Nat) : valDigits (natDigits n) = n := by
  induction n using Nat.strong_induction_on with
  | _ n ih =>
    rw [natDigits]
    by_cases h : n < 10
    · simp only [h, dite_true]
      simpa [valDigits] using digitChar_toNat_sub n h
    · simp only [h, dite_false]
      have hlt : n / 10 < n := Nat.div_lt_self (by omega) (by omega)
      have hv := ih (n / 10) hlt
      simp only [valDigits, List.foldl_append, List.foldl_cons, List.foldl_nil] at *
      rw [hv, digitChar_toNat_sub (n % 10) (Nat.mod_lt n (by omega))]
      omega

theorem toDigitsCore_eq_natDigits :
    ∀ (fuel n : Nat) (ds : List Char), n < fuel →
      Nat.toDigitsCore 10 fuel n ds = natDigits n ++ ds := by
  intro fuel
  induction fuel with
  | zero => intro n ds h; omega
  | succ fuel ih =>
    intro n ds h
    rw [Nat.toDigitsCore]
    by_cases h10 : n / 10 = 0
    · have hn : n < 10 := by omega
      simp only [h10, if_true]
      rw [natDigits]
      simp [hn, Nat.mod_eq_of_lt hn]
    · simp only [h10, if_false]
      have hge : 10 ≤ n := by
        by_contra hc
        exact h10 (Nat.div_eq_of_lt (by omega))
      have hlt : n / 10 < fuel := by
        have := Nat.div_lt_self (show 0 < n by omega) (show 1 < 10 by omega)
        omega
      rw [ih (n / 10) (Nat.digitChar (n % 10) :: ds) hlt]
      conv_rhs => rw [natDigits]
      simp [show ¬ n < 10 by omega]

theorem natRepr_eq_natDigits (n : Nat) : Nat.repr n = (natDigits n).asString := by
  rw [Nat.repr, Nat.toDigits, toDigitsCore_eq_natDigits (n + 1) n [] (by omega)]
  simp

theorem natRepr_injective {m n : Nat} (h : Nat.repr m = Nat.repr n) : m = n := by
  rw [natRepr_eq_natDigits, natRepr_eq_natDigits] at h
  have hd : natDigits m = natDigits n := congrArg String.data h
  have := congrArg valDigits hd
  rwa [valDigits_natDigits, valDigits_natDigits] at this

theorem intRepr_injective_of_nonneg {i j : Int} (hi : 0 ≤ i) (hj : 0 ≤ j)
    (h : Int.repr i = Int.repr j) : i = j := by
  obtain ⟨m, rfl⟩ := Int.eq_ofNat_of_zero_le hi
  obtain ⟨n, rfl⟩ := Int.eq_ofNat_of_zero_le hj
  have : Nat.repr m = Nat.repr n := h
  exact congrArg Int.ofNat (natRepr_injective this)

theorem string_data_append (a b : String) : (a ++ b).data = a.data ++ b.data := by
  cases a; cases b; rfl

theorem string_append_right_injective {t1 t2 : String} (s : String)
    (h : s ++ t1 = s ++ t2) : t1 = t2 := by
  have hd := congrArg String.data h
  rw [string_data_append, string_data_append] at hd
  have h2 := List.append_cancel_left hd
  cases t1; cases t2; exact congrArg String.mk h2

theorem string_eq_of_data_eq {a b : String} (h : a.data = b.data) : a = b := by
  cases a; cases b; exact congrArg String.mk h

/-! ### Cache lemmas -/

theorem maxRestartFold_le (statuses : List ContainerStatus) :
    ∀ init : Int, init ≤ maxRestartFold statuses init := by
  induction statuses with
  | nil => intro init; simp [maxRestartFold]
  | cons cs rest ih =>
    intro init
    simp only [maxRestartFold, List.foldl_cons]
    have h2 := ih (if cs.restartCount > init then cs.restartCount else init)
    simp only [maxRestartFold] at h2
    by_cases h : cs.restartCount > init
    · simp only [h, if_true] at h2 ⊢; omega
    · simp only [h, if_false] at h2 ⊢; omega

theorem podMaxRestartCount_nonneg (pod : Pod) : 0 ≤ podMaxRestartCount pod := by
  have h1 := maxRestartFold_le pod.containerStatuses 0
  have h2 := maxRestartFold_le pod.initContainerStatuses
    (maxRestartFold pod.containerStatuses 0)
  unfold podMaxRestartCount
  omega

theorem getCacheKey_injective_on_restarts {pod1 pod2 : Pod}
    (hns : pod2.namespaceName = pod1.namespaceName) (hn : pod2.name = pod1.name)
    (hu : pod2.uid = pod1.uid)
    (hr : podMaxRestartCount pod1 ≠ podMaxRestartCount pod2) :
    getCacheKey pod1 ≠ getCacheKey pod2 := by
  intro heq
  have hd := congrArg String.data heq
  simp only [getCacheKey, string_data_append, hns, hn, hu, List.append_assoc] at hd
  have h1 := List.append_cancel_left hd
  have h2 := List.append_cancel_left h1
  have h3 := List.append_cancel_left h2
  have h4 := List.append_cancel_left h3
  have h5 := List.append_cancel_left h4
  have h6 := List.append_cancel_left h5
  have hrepr : (podMaxRestartCount pod1).repr = (podMaxRestartCount pod2).repr :=
    string_eq_of_data_eq h6
  exact hr (intRepr_injective_of_nonneg (podMaxRestartCount_nonneg pod1)
    (podMaxRestartCount_nonneg pod2) hrepr)

/-- C1: for one pod identity (namespace, name, UID), two different maximum
restart counts give different cache keys; the key is the identity followed by
the maximum restart count over containers and init containers; and a
diagnosis stored under the pre-restart key is invisible to a lookup with the
post-restart key, so such a lookup behaves exactly as if the pre-restart
entry were absent. -/
theorem cacheKey_changes_on_restart (pod1 pod2 : Pod)
    (hns : pod2.namespaceName = pod1.namespaceName) (hn : pod2.name = pod1.name)
    (hu : pod2.uid = pod1.uid)
    (hr : podMaxRestartCount pod1 ≠ podMaxRestartCount pod2) :
    getCacheKey pod1 ≠ getCacheKey pod2 ∧
    (∀ pod : Pod, getCacheKey pod =
      pod.namespaceName ++ ("/") ++ pod.name ++ ("/") ++ pod.uid ++ ("/") ++
        (podMaxRestartCount pod).repr) ∧
    (∀ (cache : AnalysisCache) (d : LogAnalysisResult) (ttl tPut now : Int),
      getCachedAnalysis (setCachedAnalysis cache pod1 d ttl tPut) pod2 now =
        getCachedAnalysis cache pod2 now) := by
  have hkey := getCacheKey_injective_on_restarts hns hn hu hr
  refine ⟨hkey, fun pod => rfl, ?_⟩
  intro cache d ttl tPut now
  have hbeq : (getCacheKey pod2 == getCacheKey pod1) = false := by
    simpa using fun h => hkey h.symm
  simp [getCachedAnalysis, setCachedAnalysis, List.lookup, hbeq]

/-- C1 witness: a concrete identity, restart counts 0 and 1. -/
theorem cacheKey_changes_on_restart_witness :
    getCacheKey c1Pod1 ≠ getCacheKey c1Pod2 ∧
    getCachedAnalysis (setCachedAnalysis [] c1Pod1 c3Diagnosis 300 100) c1Pod2 150 =
      getCachedAnalysis [] c1Pod2 150 := by
  have h := cacheKey_changes_on_restart c1Pod1 c1Pod2 rfl rfl rfl (by decide)
  exact ⟨h.1, h.2.2 [] c3Diagnosis 300 100 150⟩

/-- C3: a Get after Put(key, d, ttl) at put time tStore returns d with
CachedAt = tStore and CacheExpiresAt = tStore + ttl whenever now is at most
tStore + ttl, and misses whenever now is later, while the stored entry stays
in the cache untouched. -/
theorem cache_get_after_put (cache : AnalysisCache) (pod : Pod)
    (d : LogAnalysisResult) (ttl tStore now : Int) :
    (now ≤ tStore + ttl →
      getCachedAnalysis (setCachedAnalysis cache pod d ttl tStore) pod now =
        some { d with cachedAt := tStore, cacheExpiresAt := some (tStore + ttl) }) ∧
    (now > tStore + ttl →
      getCachedAnalysis (setCachedAnalysis cache pod d ttl tStore) pod now = none ∧
      (setCachedAnalysis cache pod d ttl tStore).lookup (getCacheKey pod) =
        some { podUID := pod.uid, podNamespace := pod.namespaceName,
               podName := pod.name, restartCount := podMaxRestartCount pod,
               result := { d with cachedAt := tStore, cacheExpiresAt := some (tStore + ttl) },
               cachedAt := tStore, expiresAt := tStore + ttl }) := by
  constructor
  · intro hle
    simp [getCachedAnalysis, setCachedAnalysis, List.lookup]
    omega
  · intro hgt
    constructor
    · simp [getCachedAnalysis, setCachedAnalysis, List.lookup]
      omega
    · simp [setCachedAnalysis, List.lookup]

/-- C3 witness: store at time 100 with TTL 300; a read at 150 hits with the
stamped timestamps, a read at 500 misses while the entry is still stored. -/
theorem cache_get_after_put_witness :
    getCachedAnalysis (setCachedAnalysis [] c1Pod1 c3Diagnosis 300 100) c1Pod1 150 =
      some { c3Diagnosis with cachedAt := 100, cacheExpiresAt := some 400 } ∧
    getCachedAnalysis (setCachedAnalysis [] c1Pod1 c3Diagnosis 300 100) c1Pod1 500 = none := by
  refine ⟨?_, ?_⟩
  · exact (cache_get_after_put [] c1Pod1 c3Diagnosis 300 100 150).1 (by decide)
  · exact ((cache_get_after_put [] c1Pod1 c3Diagnosis 300 100 500).2 (by decide)).1

/-! ### Merging -/

/-- C2: with both verdicts present, AI confidence above 80 makes the AI
verdict primary with label ai, AI confidence below 50 makes the pattern
verdict primary with label pattern, and anything in the closed band 50 to 80
combines both root causes with the truncated mean of the confidences and
label pattern+ai; with exactly one verdict present that verdict is primary
with its label, and with none the merge yields nothing. -/
theorem merge_precedence (p : PatternAnalysisResult) (ai : AIAnalysisResult)
    (methods errorLines : List String) :
    (ai.confidence > 80 →
      mergeAnalysisResults (some p) (some ai) methods errorLines =
        some { rootCause := ai.rootCause, confidence := ai.confidence, method := ("ai"),
               methods := methods, patternResult := some p, aiResult := some ai,
               errorLines := deduplicateLines errorLines }) ∧
    (ai.confidence < 50 →
      mergeAnalysisResults (some p) (some ai) methods errorLines =
        some { rootCause := p.rootCause, confidence := p.confidence, method := ("pattern"),
               methods := methods, patternResult := some p, aiResult := some ai,
               errorLines := deduplicateLines errorLines }) ∧
    (50 ≤ ai.confidence → ai.confidence ≤ 80 →
      mergeAnalysisResults (some p) (some ai) methods errorLines =
        some { rootCause := ("[Pattern] ") ++ p.rootCause ++ (" | [AI] ") ++ ai.rootCause,
               confidence := (p.confidence + ai.confidence).tdiv 2,
               method := ("pattern+ai"),
               methods := methods, patternResult := some p, aiResult := some ai,
               errorLines := deduplicateLines errorLines }) ∧
    (mergeAnalysisResults none (some ai) methods errorLines =
      some { rootCause := ai.rootCause, confidence := ai.confidence, method := ("ai"),
             methods := methods, patternResult := none, aiResult := some ai,
             errorLines := deduplicateLines errorLines }) ∧
    (mergeAnalysisResults (some p) none methods errorLines =
      some { rootCause := p.rootCause, confidence := p.confidence, method := ("pattern"),
             methods := methods, patternResult := some p, aiResult := none,
             errorLines := deduplicateLines errorLines }) ∧
    (mergeAnalysisResults none none methods errorLines = none) := by
  refine ⟨?_, ?_, ?_, rfl, rfl, rfl⟩
  · intro hgt
    simp [mergeAnalysisResults, hgt]
  · intro hlt
    simp [mergeAnalysisResults, hlt, show ¬ ai.confidence > 80 by omega]
  · intro h50 h80
    simp [mergeAnalysisResults, show ¬ ai.confidence > 80 by omega,
      show ¬ ai.confidence < 50 by omega]

/-- C2 witness: the three spec examples, 85/40 and 30/70 and 65/55, with the
expected primary confidences, labels, and the combined root cause. -/
theorem merge_precedence_witness :
    mergeAnalysisResults (some { rootCause := ("p"), confidence := 40 })
        (some { rootCause := ("a"), confidence := 85 }) [("pattern"), ("ai")] [] =
      some { rootCause := ("a"), confidence := 85, method := ("ai"),
             methods := [("pattern"), ("ai")],
             patternResult := some { rootCause := ("p"), confidence := 40 },
             aiResult := some { rootCause := ("a"), confidence := 85 },
             errorLines := [] } ∧
    mergeAnalysisResults (some { rootCause := ("p"), confidence := 70 })
        (some { rootCause := ("a"), confidence := 30 }) [("pattern"), ("ai")] [] =
      some { rootCause := ("p"), confidence := 70, method := ("pattern"),
             methods := [("pattern"), ("ai")],
             patternResult := some { rootCause := ("p"), confidence := 70 },
             aiResult := some { rootCause := ("a"), confidence := 30 },
             errorLines := [] } ∧
    mergeAnalysisResults (some { rootCause := ("p"), confidence := 55 })
        (some { rootCause := ("a"), confidence := 65 }) [("pattern"), ("ai")] [] =
      some { rootCause := ("[Pattern] p | [AI] a"), confidence := 60,
             method := ("pattern+ai"), methods := [("pattern"), ("ai")],
             patternResult := some { rootCause := ("p"), confidence := 55 },
             aiResult := some { rootCause := ("a"), confidence := 65 },
             errorLines := [] } := by
  refine ⟨?_, ?_, ?_⟩
  · exact (merge_precedence { rootCause := ("p"), confidence := 40 }
      { rootCause := ("a"), confidence := 85 } [("pattern"), ("ai")] []).1 (by decide)
  · exact (merge_precedence { rootCause := ("p"), confidence := 70 }
      { rootCause := ("a"), confidence := 30 } [("pattern"), ("ai")] []).2.1 (by decide)
  · have h := (merge_precedence { rootCause := ("p"), confidence := 55 }
      { rootCause := ("a"), confidence := 65 } [("pattern"), ("ai")] []).2.2.1
      (by decide) (by decide)
    simpa using h

/-! ### Status investigation -/

/-- C8: for a container whose current state is terminated with a non-empty
reason and no recorded last termination, the finding carries that reason and
exit code, and its message is synthesized from reason and exit code exactly
when the terminated message is empty; on the concrete OOMKilled pod the
investigation returns reason OOMKilled with the synthesized message. -/
theorem terminated_message_synthesis (cs : ContainerStatus) (containerType : String)
    (t : ContainerStateTerminated) (hw : cs.state.waiting = none)
    (ht : cs.state.terminated = some t)
    (hlt : cs.lastTerminationState.terminated = none) (hreason : t.reason ≠ "") :
    (investigateContainerStatus cs containerType).reason = t.reason ∧
    (investigateContainerStatus cs containerType).exitCode = some t.exitCode ∧
    (investigateContainerStatus cs containerType).message =
      (if t.message = "" then
        ("Container terminated with reason \x27") ++ t.reason ++
          ("\x27 (exit code: ") ++ t.exitCode.repr ++ (")")
      else t.message) ∧
    (investigatePodFailure c8Pod).1 = ("OOMKilled") ∧
    (investigatePodFailure c8Pod).2.1 =
      ("Container terminated with reason \x27OOMKilled\x27 (exit code: 137)") := by
  refine ?_ -- unfold the investigation on the hypotheses, then check the scenario
  have hmain : (investigateContainerStatus cs containerType).reason = t.reason ∧
      (investigateContainerStatus cs containerType).exitCode = some t.exitCode ∧
      (investigateContainerStatus cs containerType).message =
        (if t.message = "" then
          ("Container terminated with reason \x27") ++ t.reason ++
            ("\x27 (exit code: ") ++ t.exitCode.repr ++ (")")
        else t.message) := by
    unfold investigateContainerStatus
    rw [hw, ht, hlt]
    by_cases hm : t.message = ""
    · simp [hm, hreason]
    · simp [hm, hreason]
  exact ⟨hmain.1, hmain.2.1, hmain.2.2, by decide, by decide⟩

/-- C8 witness: the OOMKilled container status itself satisfies the general
statement, with the synthesized message. -/
theorem terminated_message_synthesis_witness :
    (investigateContainerStatus c8Status ("container")).reason = ("OOMKilled") ∧
    (investigateContainerStatus c8Status ("container")).message =
      ("Container terminated with reason \x27OOMKilled\x27 (exit code: 137)") := by
  have h := terminated_message_synthesis c8Status ("container")
    { exitCode := 137, reason := ("OOMKilled"), message := "" } rfl rfl rfl (by decide)
  exact ⟨h.1, by simpa using h.2.2.1⟩

/-! ### Confidence values -/

theorem clampConfidence_mem (c : Int) :
    10 ≤ clampConfidence c ∧ clampConfidence c ≤ 100 := by
  unfold clampConfidence
  split_ifs <;> omega

theorem calculateAIConfidence_mem (s : String) :
    10 ≤ calculateAIConfidence s ∧ calculateAIConfidence s ≤ 100 :=
  clampConfidence_mem _

theorem analyzeWithPatterns_confidence (logLines : List String)
    (config : LogAnalysisConfig) (r : LogAnalysisResult)
    (h : analyzeWithPatterns logLines config = some r) :
    (r.confidence = 30 ∨ r.confidence = 50 ∨ r.confidence = 65 ∨ r.confidence = 80) ∧
    ((matchPatternLines (sortByPriorityDesc (patternsFor config)) logLines).2 = none →
      r.confidence = 30) ∧
    (∀ bm, (matchPatternLines (sortByPriorityDesc (patternsFor config)) logLines).2 = some bm →
      ((matchPatternLines (sortByPriorityDesc (patternsFor config)) logLines).1.length ≥ 3 →
        r.confidence = 80) ∧
      ((matchPatternLines (sortByPriorityDesc (patternsFor config)) logLines).1.length = 2 →
        r.confidence = 65) ∧
      ((matchPatternLines (sortByPriorityDesc (patternsFor config)) logLines).1.length ≤ 1 →
        r.confidence = 50)) := by
  unfold analyzeWithPatterns at h
  dsimp only at h
  split at h
  next heq =>
    by_cases hlen : logLines.length > 0
    · rw [if_pos hlen] at h
      injection h with h
      subst h
      refine ⟨Or.inl rfl, fun _ => rfl, fun bm hbm => ?_⟩
      rw [heq] at hbm
      cases hbm
    · rw [if_neg hlen] at h
      cases h
  next bm heq =>
    injection h with h
    have hc : r.confidence =
        (if (matchPatternLines (sortByPriorityDesc (patternsFor config)) logLines).1.length ≥ 3
         then (80 : Int)
         else if (matchPatternLines (sortByPriorityDesc (patternsFor config)) logLines).1.length ≥ 2
         then 65 else 50) := by
      rw [← h]
    refine ⟨?_, fun hcon => ?_, fun bm2 hbm2 => ⟨fun h3 => ?_, fun h2 => ?_, fun h1 => ?_⟩⟩
    · rw [hc]; split_ifs <;> simp
    · rw [heq] at hcon; cases hcon
    · rw [hc, if_pos h3]
    · rw [hc, if_neg (by omega), if_pos (by omega)]
    · rw [hc, if_neg (by omega), if_neg (by omega)]

/-- C7: the AI confidence heuristic always lands in the closed range 10 to
100, and a non-nil pattern verdict carries confidence 30 (generic, no rule
matched), 80 (at least three matched lines), 65 (exactly two) or 50 (one). -/
theorem confidence_ranges :
    (∀ s : String, 10 ≤ calculateAIConfidence s ∧ calculateAIConfidence s ≤ 100) ∧
    (∀ (logLines : List String) (config : LogAnalysisConfig) (r : LogAnalysisResult),
      analyzeWithPatterns logLines config = some r →
      (r.confidence = 30 ∨ r.confidence = 50 ∨ r.confidence = 65 ∨ r.confidence = 80) ∧
      ((matchPatternLines (sortByPriorityDesc (patternsFor config)) logLines).2 = none →
        r.confidence = 30) ∧
      (∀ bm,
        (matchPatternLines (sortByPriorityDesc (patternsFor config)) logLines).2 = some bm →
        ((matchPatternLines (sortByPriorityDesc (patternsFor config)) logLines).1.length ≥ 3 →
          r.confidence = 80) ∧
        ((matchPatternLines (sortByPriorityDesc (patternsFor config)) logLines).1.length = 2 →
          r.confidence = 65) ∧
        ((matchPatternLines (sortByPriorityDesc (patternsFor config)) logLines).1.length ≤ 1 →
          r.confidence = 50))) :=
  ⟨calculateAIConfidence_mem, analyzeWithPatterns_confidence⟩

/-- C7 witness: the heuristic on two concrete responses stays in range, and
the twelve-line scenario verdict carries confidence 80. -/
theorem confidence_ranges_witness :
    (10 ≤ calculateAIConfidence ("") ∧ calculateAIConfidence ("") ≤ 100) ∧
    (10 ≤ calculateAIConfidence ("error: out of memory, crashed") ∧
      calculateAIConfidence ("error: out of memory, crashed") ≤ 100) ∧
    ∃ r, analyzeWithPatterns c5LogLines { enabled := true } = some r ∧
      (r.confidence = 30 ∨ r.confidence = 50 ∨ r.confidence = 65 ∨ r.confidence = 80) := by
  refine ⟨confidence_ranges.1 (""), confidence_ranges.1 _, ?_⟩
  have hsome : (analyzeWithPatterns c5LogLines { enabled := true }).isSome := by decide
  rcases Option.isSome_iff_exists.1 hsome with ⟨r, hr⟩
  exact ⟨r, hr, (confidence_ranges.2 c5LogLines { enabled := true } r hr).1⟩

/-! ### Pattern rule ordering -/

theorem mem_insertByPriority (p b : PatternMatch) :
    ∀ l : List PatternMatch, b ∈ insertByPriority p l ↔ b = p ∨ b ∈ l := by
  intro l
  induction l with
  | nil => simp [insertByPriority]
  | cons q rest ih =>
    simp only [insertByPriority]
    by_cases hpq : p.priority ≥ q.priority
    · rw [if_pos hpq]
      simp only [List.mem_cons]
    · rw [if_neg hpq]
      simp only [List.mem_cons, ih]
      tauto

theorem insertByPriority_pairwise (p : PatternMatch) (l : List PatternMatch)
    (h : l.Pairwise (fun a b => a.priority ≥ b.priority)) :
    (insertByPriority p l).Pairwise (fun a b => a.priority ≥ b.priority) := by
  induction l with
  | nil => simp [insertByPriority]
  | cons q rest ih =>
    rcases List.pairwise_cons.1 h with ⟨hq, hrest⟩
    simp only [insertByPriority]
    by_cases hpq : p.priority ≥ q.priority
    · rw [if_pos hpq]
      refine List.pairwise_cons.2 ⟨?_, h⟩
      intro b hb
      rcases List.mem_cons.1 hb with rfl | hb2
      · exact hpq
      · have := hq b hb2
        omega
    · rw [if_neg hpq]
      refine List.pairwise_cons.2 ⟨?_, ih hrest⟩
      intro b hb
      rcases (mem_insertByPriority p b rest).1 hb with rfl | hb2
      · omega
      · exact hq b hb2

theorem sortByPriorityDesc_pairwise (l : List PatternMatch) :
    (sortByPriorityDesc l).Pairwise (fun a b => a.priority ≥ b.priority) := by
  induction l with
  | nil => simp [sortByPriorityDesc]
  | cons a t ih => exact insertByPriority_pairwise a (sortByPriorityDesc t) ih

theorem filter_insertByPriority (p : PatternMatch) (c : Int) :
    ∀ l : List PatternMatch,
      (insertByPriority p l).filter (fun q => q.priority == c) =
        if p.priority == c then p :: l.filter (fun q => q.priority == c)
        else l.filter (fun q => q.priority == c) := by
  intro l
  induction l with
  | nil =>
    cases hp : (p.priority == c) <;> simp [insertByPriority, List.filter, hp]
  | cons q rest ih =>
    simp only [insertByPriority]
    by_cases hpq : p.priority ≥ q.priority
    · rw [if_pos hpq]
      cases hp : (p.priority == c) <;> simp [List.filter_cons, hp]
    · rw [if_neg hpq]
      cases hq : (q.priority == c)
      · cases hp : (p.priority == c) <;>
          simp [List.filter_cons, hq, hp, ih]
      · have hpc : (p.priority == c) = false := by
          have hqc : q.priority = c := by simpa using hq
          simp only [beq_eq_false_iff_ne, ne_eq]
          omega
        simp [List.filter_cons, hq, hpc, ih]

theorem sortByPriorityDesc_filter_stable (c : Int) :
    ∀ l : List PatternMatch,
      (sortByPriorityDesc l).filter (fun q => q.priority == c) =
        l.filter (fun q => q.priority == c) := by
  intro l
  induction l with
  | nil => rfl
  | cons a t ih =>
    show (insertByPriority a (sortByPriorityDesc t)).filter _ = _
    rw [filter_insertByPriority a c (sortByPriorityDesc t)]
    cases ha : (a.priority == c) <;> simp [List.filter_cons, ha, ih]

/-- C5 counterexample: on the twelve-line scenario (four ConnectionRefused
lines and one DatabaseConnectionError line), the verdict carries five
evidence lines, not exactly the four ConnectionRefused lines, because the
scan collects every line matched by any rule. -/
theorem pattern_scan_counterexample :
    (analyzeWithPatterns c5LogLines { enabled := true }).map (fun r => r.errorLines.length) =
      some 5 ∧
    ¬ (analyzeWithPatterns c5LogLines { enabled := true }).map (fun r => r.errorLines) =
      some c5FourCRLines := by
  constructor
  · decide
  · decide

/-- C5 (amended): the compiled rules are sorted by priority descending with a
stable order (rules of equal priority keep their declaration order, witnessed
by the filter identity and by the concrete sorted default order); scanning
lines top-down and testing rules in sorted order, each line matches at most
one rule, and the reported matchedPattern is the rule of the first matching
line; on the twelve-line scenario the verdict is ConnectionRefused with
confidence 80, and its evidence is the five matched lines (the four
ConnectionRefused lines plus the DatabaseConnectionError line, in line
order). -/
theorem pattern_scan_first_match :
    (∀ l : List PatternMatch,
      (sortByPriorityDesc l).Pairwise (fun a b => a.priority ≥ b.priority)) ∧
    (∀ (l : List PatternMatch) (c : Int),
      (sortByPriorityDesc l).filter (fun q => q.priority == c) =
        l.filter (fun q => q.priority == c)) ∧
    ((sortByPriorityDesc (patternsFor { enabled := true })).map (fun p => p.name) =
      [("KafkaBrokerError"), ("KafkaConnectionError"), ("ConnectionRefused"),
       ("ConnectionTimeout"), ("DialTCP"), ("ServiceUnavailable"), ("DNSError"),
       ("DatabaseConnectionError"), ("HTTP502"), ("HTTP503")]) ∧
    (analyzeWithPatterns c5LogLines { enabled := true } =
      some { rootCause := ("Connection refused - service may be down or unreachable"),
             confidence := 80, errorLines := c5MatchedLines,
             matchedPattern := ("ConnectionRefused"), priority := 10 }) := by
  refine ⟨sortByPriorityDesc_pairwise, fun l c => sortByPriorityDesc_filter_stable c l, ?_, ?_⟩
  · rfl
  · decide

/-! ### Pipeline lemmas -/

theorem methodStep_ai_component (oracle : AIOracle) (logLines : List String)
    (config : LogAnalysisConfig)
    (acc : Option PatternAnalysisResult × Option AIAnalysisResult × List String)
    (m : String) :
    (methodStep oracle logLines config acc m).2.1 =
      if m = ("ai") then some (aiVerdictOf oracle logLines config) else acc.2.1 := by
  obtain ⟨p, a, e⟩ := acc
  unfold methodStep
  dsimp only
  by_cases hm : m = ("pattern")
  · rw [if_pos hm, if_neg (by rw [hm]; decide)]
    cases analyzeWithPatterns logLines config <;> rfl
  · rw [if_neg hm]
    by_cases ha : m = ("ai")
    · rw [if_pos ha, if_pos ha]
      unfold aiVerdictOf
      cases analyzeWithAI oracle logLines config <;> rfl
    · rw [if_neg ha, if_neg ha]

theorem analyzeWithPatterns_of_ne_nil (logLines : List String)
    (config : LogAnalysisConfig) (hne : logLines ≠ []) :
    ∃ r, analyzeWithPatterns logLines config = some r := by
  unfold analyzeWithPatterns
  dsimp only
  split
  · rw [if_pos (by simpa [List.length_pos] using hne)]
    exact ⟨_, rfl⟩
  · exact ⟨_, rfl⟩

theorem patternVerdictOf_ne_none (logLines : List String)
    (config : LogAnalysisConfig) (hne : logLines ≠ []) :
    patternVerdictOf logLines config ≠ none := by
  obtain ⟨r, hr⟩ := analyzeWithPatterns_of_ne_nil logLines config hne
  simp [patternVerdictOf, hr]

theorem methodStep_pattern_component (oracle : AIOracle) (logLines : List String)
    (config : LogAnalysisConfig)
    (acc : Option PatternAnalysisResult × Option AIAnalysisResult × List String)
    (m : String) (hne : logLines ≠ []) :
    (methodStep oracle logLines config acc m).1 =
      if m = ("pattern") then patternVerdictOf logLines config else acc.1 := by
  obtain ⟨p, a, e⟩ := acc
  unfold methodStep
  dsimp only
  by_cases hm : m = ("pattern")
  · rw [if_pos hm, if_pos hm]
    unfold patternVerdictOf
    obtain ⟨r, hr⟩ := analyzeWithPatterns_of_ne_nil logLines config hne
    rw [hr]
  · rw [if_neg hm, if_neg hm]
    by_cases ha : m = ("ai")
    · rw [if_pos ha]
      cases analyzeWithAI oracle logLines config <;> rfl
    · rw [if_neg ha]

theorem runMethods_ai_component (oracle : AIOracle) (logLines : List String)
    (config : LogAnalysisConfig) :
    ∀ (methods : List String)
      (acc : Option PatternAnalysisResult × Option AIAnalysisResult × List String),
      (methods.foldl (methodStep oracle logLines config) acc).2.1 =
        if ("ai") ∈ methods then some (aiVerdictOf oracle logLines config)
        else acc.2.1 := by
  intro methods
  induction methods with
  | nil => intro acc; simp
  | cons m rest ih =>
    intro acc
    simp only [List.foldl_cons]
    rw [ih]
    by_cases hrest : ("ai") ∈ rest
    · simp [hrest, List.mem_cons]
    · rw [if_neg hrest, methodStep_ai_component]
      by_cases hm : m = ("ai")
      · subst hm
        simp [List.mem_cons]
      · have hmem : ¬ (("ai") ∈ m :: rest) := by
          simp only [List.mem_cons]
          rintro (h | h)
          · exact hm h.symm
          · exact hrest h
        rw [if_neg hmem, if_neg hm]

theorem runMethods_pattern_component (oracle : AIOracle) (logLines : List String)
    (config : LogAnalysisConfig) (hne : logLines ≠ []) :
    ∀ (methods : List String)
      (acc : Option PatternAnalysisResult × Option AIAnalysisResult × List String),
      (methods.foldl (methodStep oracle logLines config) acc).1 =
        if ("pattern") ∈ methods then patternVerdictOf logLines config
        else acc.1 := by
  intro methods
  induction methods with
  | nil => intro acc; simp
  | cons m rest ih =>
    intro acc
    simp only [List.foldl_cons]
    rw [ih]
    by_cases hrest : ("pattern") ∈ rest
    · simp [hrest, List.mem_cons]
    · rw [if_neg hrest, methodStep_pattern_component oracle logLines config _ _ hne]
      by_cases hm : m = ("pattern")
      · subst hm
        simp [List.mem_cons]
      · have hmem : ¬ (("pattern") ∈ m :: rest) := by
          simp only [List.mem_cons]
          rintro (h | h)
          · exact hm h.symm
          · exact hrest h
        rw [if_neg hmem, if_neg hm]

theorem mergeAnalysisResults_eq_none_iff (p : Option PatternAnalysisResult)
    (a : Option AIAnalysisResult) (ms errs : List String) :
    mergeAnalysisResults p a ms errs = none ↔ p = none ∧ a = none := by
  cases p <;> cases a <;> simp only [mergeAnalysisResults] <;> (try split_ifs) <;> simp

theorem mergeAnalysisResults_fields (p : Option PatternAnalysisResult)
    (a : Option AIAnalysisResult) (ms errs : List String) (r : LogAnalysisResult)
    (h : mergeAnalysisResults p a ms errs = some r) :
    r.patternResult = p ∧ r.aiResult = a ∧ r.methods = ms ∧
      r.errorLines = deduplicateLines errs := by
  cases p <;> cases a <;>
    simp only [mergeAnalysisResults] at h
  · cases h
  · rw [← Option.some.inj h]
    exact ⟨rfl, rfl, rfl, rfl⟩
  · rw [← Option.some.inj h]
    exact ⟨rfl, rfl, rfl, rfl⟩
  · split_ifs at h <;>
      (rw [← Option.some.inj h]; exact ⟨rfl, rfl, rfl, rfl⟩)

theorem getPodLogs_ok (config : LogAnalysisConfig) (lines : List String) :
    getPodLogs config (.ok lines) =
      .ok (if (match config.filterErrorsOnly with | none => true | some b => b)
           then filterErrorLines lines else lines) := by
  unfold getPodLogs
  dsimp only
  split <;> rfl

theorem analyzeWithAI_ok_errorLines (oracle : AIOracle) (logLines : List String)
    (config : LogAnalysisConfig) (r : LogAnalysisResult)
    (h : analyzeWithAI oracle logLines config = .ok r) :
    r.errorLines = logLines.take (min 20 logLines.length) ∧
      r.errorLines.length ≤ 20 := by
  unfold analyzeWithAI at h
  dsimp only at h
  split at h
  · cases h
  · split at h
    · cases h
    · split at h
      · cases h
      · split at h
        · cases h
        · split at h
          · cases h
          · have hr := Except.ok.inj h
            rw [← hr]
            refine ⟨rfl, ?_⟩
            simp [List.length_take]

theorem methodStep_ai_error_lines (oracle : AIOracle) (logLines : List String)
    (config : LogAnalysisConfig)
    (acc : Option PatternAnalysisResult × Option AIAnalysisResult × List String)
    (e : String) (h : analyzeWithAI oracle logLines config = .error e) :
    (methodStep oracle logLines config acc ("ai")).2.2 = acc.2.2 := by
  obtain ⟨p, a, el⟩ := acc
  unfold methodStep
  dsimp only
  rw [if_neg (by decide), if_pos rfl, h]

theorem methodStep_ai_ok_lines (oracle : AIOracle) (logLines : List String)
    (config : LogAnalysisConfig)
    (acc : Option PatternAnalysisResult × Option AIAnalysisResult × List String)
    (r : LogAnalysisResult) (h : analyzeWithAI oracle logLines config = .ok r) :
    (methodStep oracle logLines config acc ("ai")).2.2 = acc.2.2 ++ r.errorLines := by
  obtain ⟨p, a, el⟩ := acc
  unfold methodStep
  dsimp only
  rw [if_neg (by decide), if_pos rfl, h]

theorem dedup_foldl_nodup :
    ∀ (l acc : List String), acc.Nodup →
      (l.foldl (fun result line =>
        if result.contains line then result else result ++ [line]) acc).Nodup := by
  intro l
  induction l with
  | nil => intro acc hacc; exact hacc
  | cons y t ih =>
    intro acc hacc
    simp only [List.foldl_cons]
    apply ih
    by_cases hy : acc.contains y
    · rw [if_pos hy]; exact hacc
    · rw [if_neg hy]
      have hmem : y ∉ acc := by
        intro hm
        exact hy (List.elem_eq_true_of_mem hm)
      simp [List.nodup_append, hacc, hmem]

theorem dedup_foldl_mem :
    ∀ (l acc : List String) (x : String),
      x ∈ l.foldl (fun result line =>
        if result.contains line then result else result ++ [line]) acc ↔
      x ∈ acc ∨ x ∈ l := by
  intro l
  induction l with
  | nil => intro acc x; simp
  | cons y t ih =>
    intro acc x
    simp only [List.foldl_cons]
    rw [ih]
    by_cases hy : acc.contains y
    · rw [if_pos hy]
      have hmy : y ∈ acc := by
        have := hy
        simpa [List.contains] using this
      constructor
      · rintro (hx | hx)
        · exact Or.inl hx
        · exact Or.inr (List.mem_cons_of_mem y hx)
      · rintro (hx | hx)
        · exact Or.inl hx
        · rcases List.mem_cons.1 hx with rfl | hx2
          · exact Or.inl hmy
          · exact Or.inr hx2
    · rw [if_neg hy]
      simp only [List.mem_append, List.mem_singleton, List.mem_cons]
      tauto

theorem dedup_foldl_sublist :
    ∀ (l acc : List String),
      (l.foldl (fun result line =>
        if result.contains line then result else result ++ [line]) acc).Sublist
        (acc ++ l) := by
  intro l
  induction l with
  | nil => intro acc; simp
  | cons y t ih =>
    intro acc
    simp only [List.foldl_cons]
    by_cases hy : acc.contains y
    · rw [if_pos hy]
      refine (ih acc).trans ?_
      refine List.Sublist.append_left ?_ acc
      exact List.sublist_cons_self y t
    · rw [if_neg hy]
      have := ih (acc ++ [y])
      simpa [List.append_assoc] using this

theorem deduplicateLines_nodup (lines : List String) :
    (deduplicateLines lines).Nodup :=
  dedup_foldl_nodup lines [] List.nodup_nil

theorem deduplicateLines_mem (lines : List String) (x : String) :
    x ∈ deduplicateLines lines ↔ x ∈ lines := by
  have := dedup_foldl_mem lines [] x
  simpa [deduplicateLines] using this

theorem deduplicateLines_sublist (lines : List String) :
    (deduplicateLines lines).Sublist lines := by
  have := dedup_foldl_sublist lines []
  simpa [deduplicateLines] using this

/-- C4: with analysis enabled, a log-fetch failure makes the pipeline return
no diagnosis and a wrapped error, before any method output exists; after a
successful fetch the pipeline never returns an error: with no verdict at all
it returns no diagnosis, with at least one verdict (a failed method still
leaves a verdict) it returns a diagnosis carrying exactly the collected
pattern and AI verdicts; an AI call failure is recorded as an aiResult whose
error field carries the message, and a pattern run always leaves a pattern
verdict. -/
theorem pipeline_error_handling (cfg : LogAnalysisConfig) (oracle : AIOracle)
    (now : Int) (hEnabled : cfg.enabled = true) :
    (∀ e, analyzeLogs (some cfg) (.error e) oracle now =
      .error (("failed to get pod logs: ") ++ e)) ∧
    (∀ lines, ∃ res, analyzeLogs (some cfg) (.ok lines) oracle now = .ok res) ∧
    (∀ lines logLines, getPodLogs cfg (.ok lines) = .ok logLines → logLines ≠ [] →
      ((runMethods oracle logLines cfg (resolveMethods cfg)).1 = none →
        (runMethods oracle logLines cfg (resolveMethods cfg)).2.1 = none →
        analyzeLogs (some cfg) (.ok lines) oracle now = .ok none) ∧
      (((runMethods oracle logLines cfg (resolveMethods cfg)).1 ≠ none ∨
        (runMethods oracle logLines cfg (resolveMethods cfg)).2.1 ≠ none) →
        ∃ r, analyzeLogs (some cfg) (.ok lines) oracle now = .ok (some r) ∧
          r.patternResult = (runMethods oracle logLines cfg (resolveMethods cfg)).1 ∧
          r.aiResult = (runMethods oracle logLines cfg (resolveMethods cfg)).2.1) ∧
      (∀ e, ("ai") ∈ resolveMethods cfg →
        analyzeWithAI oracle logLines cfg = .error e →
        (runMethods oracle logLines cfg (resolveMethods cfg)).2.1 =
          some { error := ("AI analysis failed: ") ++ e }) ∧
      (("pattern") ∈ resolveMethods cfg →
        (runMethods oracle logLines cfg (resolveMethods cfg)).1 =
          patternVerdictOf logLines cfg ∧
        (runMethods oracle logLines cfg (resolveMethods cfg)).1 ≠ none)) := by
  refine ⟨?_, ?_, ?_⟩
  · intro e
    simp [analyzeLogs, hEnabled, getPodLogs]
  · intro lines
    simp only [analyzeLogs, hEnabled, Bool.not_true, Bool.false_eq_true, if_false]
    rw [getPodLogs_ok]
    dsimp only
    repeat' split
    all_goals exact ⟨_, rfl⟩
  · intro lines logLines hlog hne
    have hempty : logLines.isEmpty = false := by
      cases logLines
      · exact absurd rfl hne
      · rfl
    have hshape : analyzeLogs (some cfg) (.ok lines) oracle now =
        (match mergeAnalysisResults
            (runMethods oracle logLines cfg (resolveMethods cfg)).1
            (runMethods oracle logLines cfg (resolveMethods cfg)).2.1
            (resolveMethods cfg)
            (runMethods oracle logLines cfg (resolveMethods cfg)).2.2 with
          | none => Except.ok none
          | some finalResult =>
            Except.ok (some { finalResult with analyzedAt := now })) := by
      simp only [analyzeLogs, hEnabled, Bool.not_true, Bool.false_eq_true, if_false]
      rw [hlog]
      dsimp only
      rw [hempty]
      simp only [Bool.false_eq_true, if_false]
    refine ⟨?_, ?_, ?_, ?_⟩
    · intro h1 h2
      rw [hshape, h1, h2]
      rfl
    · intro hsome
      have hnn : mergeAnalysisResults
          (runMethods oracle logLines cfg (resolveMethods cfg)).1
          (runMethods oracle logLines cfg (resolveMethods cfg)).2.1
          (resolveMethods cfg)
          (runMethods oracle logLines cfg (resolveMethods cfg)).2.2 ≠ none := by
        rw [Ne, mergeAnalysisResults_eq_none_iff]
        tauto
      rcases hM : mergeAnalysisResults
          (runMethods oracle logLines cfg (resolveMethods cfg)).1
          (runMethods oracle logLines cfg (resolveMethods cfg)).2.1
          (resolveMethods cfg)
          (runMethods oracle logLines cfg (resolveMethods cfg)).2.2 with _ | fr
      · exact absurd hM hnn
      · have hf := mergeAnalysisResults_fields _ _ _ _ fr hM
        refine ⟨{ fr with analyzedAt := now }, ?_, hf.1, hf.2.1⟩
        rw [hshape, hM]
    · intro e hmem haierr
      have hc := runMethods_ai_component oracle logLines cfg (resolveMethods cfg)
        (none, none, [])
      rw [if_pos hmem] at hc
      have : runMethods oracle logLines cfg (resolveMethods cfg) =
          (resolveMethods cfg).foldl (methodStep oracle logLines cfg)
            (none, none, []) := rfl
      rw [this, hc]
      unfold aiVerdictOf
      rw [haierr]
    · intro hmem
      have hc := runMethods_pattern_component oracle logLines cfg hne
        (resolveMethods cfg) (none, none, [])
      rw [if_pos hmem] at hc
      have hrm : runMethods oracle logLines cfg (resolveMethods cfg) =
          (resolveMethods cfg).foldl (methodStep oracle logLines cfg)
            (none, none, []) := rfl
      rw [hrm, hc]
      exact ⟨rfl, patternVerdictOf_ne_none logLines cfg hne⟩

/-- C4 witness: a concrete fetch failure aborts with the wrapped error; with
the fetch succeeding and the AI endpoint answering HTTP 500, the AI verdict
carries the error text while the pattern verdict is still present. -/
theorem pipeline_error_handling_witness :
    analyzeLogs (some c4Config) (.error ("boom")) c4Oracle 0 =
      .error (("failed to get pod logs: ") ++ ("boom")) ∧
    (runMethods c4Oracle c4LogLines c4Config (resolveMethods c4Config)).2.1 =
      some { error := ("AI analysis failed: ") ++
        (("AI endpoint returned status 500: upstream exploded")) } ∧
    (runMethods c4Oracle c4LogLines c4Config (resolveMethods c4Config)).1 ≠ none := by
  have h := pipeline_error_handling c4Config c4Oracle 0 rfl
  have h3 := h.2.2 c4LogLines c4LogLines rfl (by decide)
  exact ⟨h.1 ("boom"),
    h3.2.2.1 (("AI endpoint returned status 500: upstream exploded")) (by decide) rfl,
    (h3.2.2.2 (by decide)).2⟩

/-- C6 counterexample: a pattern-only run over twenty-one distinct matching
lines produces a merged diagnosis whose errorLines has twenty-one entries,
so the merged list is not capped at twenty. -/
theorem merged_errorLines_counterexample :
    (analyzeLogs (some { enabled := true }) (.ok c6LogLines) {} 0).map
      (fun o => o.map (fun r => r.errorLines.length)) = .ok (some 21) := by
  rfl

/-- C6 (amended): the merged errorLines is deduplicateLines applied to the
collected lines, hence duplicate-free, a subsequence of the collected lines
in first-seen order, and containing exactly their members; a method whose
verdict carries an error contributes no lines (shown for the AI step), and a
successful AI run contributes at most its first twenty lines; the merged
list itself has no overall twenty-entry cap. -/
theorem merged_errorLines_dedup (p : Option PatternAnalysisResult)
    (a : Option AIAnalysisResult) (ms errs : List String) (oracle : AIOracle)
    (logLines : List String) (cfg : LogAnalysisConfig)
    (acc : Option PatternAnalysisResult × Option AIAnalysisResult × List String) :
    (∀ r, mergeAnalysisResults p a ms errs = some r →
      r.errorLines = deduplicateLines errs) ∧
    (deduplicateLines errs).Nodup ∧
    (deduplicateLines errs).Sublist errs ∧
    (∀ x, x ∈ deduplicateLines errs ↔ x ∈ errs) ∧
    (∀ e, analyzeWithAI oracle logLines cfg = .error e →
      (methodStep oracle logLines cfg acc ("ai")).2.2 = acc.2.2) ∧
    (∀ r, analyzeWithAI oracle logLines cfg = .ok r →
      (methodStep oracle logLines cfg acc ("ai")).2.2 = acc.2.2 ++ r.errorLines ∧
      r.errorLines.length ≤ 20) := by
  refine ⟨?_, deduplicateLines_nodup errs, deduplicateLines_sublist errs,
    deduplicateLines_mem errs, ?_, ?_⟩
  · intro r h
    exact (mergeAnalysisResults_fields p a ms errs r h).2.2.2
  · intro e h
    exact methodStep_ai_error_lines oracle logLines cfg acc e h
  · intro r h
    exact ⟨methodStep_ai_ok_lines oracle logLines cfg acc r h,
      (analyzeWithAI_ok_errorLines oracle logLines cfg r h).2⟩

/-- C6 witness: merging with two duplicated collected lines yields the
deduplicated pair, and a failing AI step adds nothing to collected lines. -/
theorem merged_errorLines_dedup_witness :
    (∀ r, mergeAnalysisResults (some { rootCause := ("p"), confidence := 50 }) none
        [("pattern")] [("a"), ("b"), ("a")] = some r →
      r.errorLines = deduplicateLines [("a"), ("b"), ("a")]) ∧
    deduplicateLines [("a"), ("b"), ("a")] = [("a"), ("b")] ∧
    (methodStep c4Oracle c4LogLines c4Config (none, none, [("x")]) ("ai")).2.2 =
      [("x")] := by
  have h := merged_errorLines_dedup (some { rootCause := ("p"), confidence := 50 }) none
    [("pattern")] [("a"), ("b"), ("a")] c4Oracle c4LogLines c4Config
    (none, none, [("x")])
  refine ⟨h.1, by decide, ?_⟩
  exact h.2.2.2.2.1 (("AI endpoint returned status 500: upstream exploded")) rfl

/-! ### Method defaulting and line filtering -/

/-- C9: with the Methods list empty, the deprecated Method field names the
single method to run when non-empty, and otherwise the single method pattern
runs; in the latter case the whole method loop is exactly one pattern step,
leaving a pattern verdict and no AI verdict. -/
theorem method_defaulting (cfg : LogAnalysisConfig) :
    (cfg.methods = [] → cfg.method ≠ "" → resolveMethods cfg = [cfg.method]) ∧
    (cfg.methods = [] → cfg.method = "" → resolveMethods cfg = [("pattern")]) ∧
    (cfg.methods = [] → cfg.method = "" →
      ∀ (oracle : AIOracle) (logLines : List String),
        runMethods oracle logLines cfg (resolveMethods cfg) =
          methodStep oracle logLines cfg (none, none, []) ("pattern")) ∧
    (cfg.methods = [] → cfg.method = "" →
      ∀ (oracle : AIOracle) (logLines : List String),
        (runMethods oracle logLines cfg (resolveMethods cfg)).2.1 = none ∧
        (logLines ≠ [] →
          (runMethods oracle logLines cfg (resolveMethods cfg)).1 =
            patternVerdictOf logLines cfg)) := by
  refine ⟨?_, ?_, ?_, ?_⟩
  · intro hms hm
    simp [resolveMethods, hms, hm]
  · intro hms hm
    simp [resolveMethods, hms, hm]
  · intro hms hm oracle logLines
    have hr : resolveMethods cfg = [("pattern")] := by simp [resolveMethods, hms, hm]
    rw [hr]
    rfl
  · intro hms hm oracle logLines
    have hr : resolveMethods cfg = [("pattern")] := by simp [resolveMethods, hms, hm]
    constructor
    · have hc := runMethods_ai_component oracle logLines cfg (resolveMethods cfg)
        (none, none, [])
      rw [hr] at hc ⊢
      rw [show runMethods oracle logLines cfg [("pattern")] =
        [("pattern")].foldl (methodStep oracle logLines cfg) (none, none, []) from rfl, hc]
      rw [if_neg (by decide)]
    · intro hne
      have hc := runMethods_pattern_component oracle logLines cfg hne
        (resolveMethods cfg) (none, none, [])
      rw [hr] at hc ⊢
      rw [show runMethods oracle logLines cfg [("pattern")] =
        [("pattern")].foldl (methodStep oracle logLines cfg) (none, none, []) from rfl, hc]
      rw [if_pos (by decide)]

/-- C9 witness: the enabled config with nothing configured resolves to the
pattern method, and on a concrete line the loop leaves no AI verdict. -/
theorem method_defaulting_witness :
    resolveMethods c9Config = [("pattern")] ∧
    (runMethods {} c4LogLines c9Config (resolveMethods c9Config)).2.1 = none := by
  have h := method_defaulting c9Config
  exact ⟨h.2.1 rfl rfl, (h.2.2.2 rfl rfl {} c4LogLines).1⟩

/-- C10: an unset FilterErrorsOnly defaults to true, in which case the
fetched lines are filtered; a line survives the filter exactly when its
lowercased text contains one of the eleven error keywords; and when no
fetched line contains a keyword, the enabled pipeline yields no diagnosis
and no error. -/
theorem filter_defaults_and_keywords (cfg : LogAnalysisConfig)
    (lines : List String) :
    (cfg.filterErrorsOnly = none →
      getPodLogs cfg (.ok lines) = .ok (filterErrorLines lines)) ∧
    (∀ line, line ∈ filterErrorLines lines ↔
      line ∈ lines ∧
        errorKeywords.any (fun keyword => strContains (strToLower line) keyword) = true) ∧
    (cfg.enabled = true → cfg.filterErrorsOnly = none →
      (∀ line ∈ lines,
        errorKeywords.any (fun keyword => strContains (strToLower line) keyword) = false) →
      ∀ (oracle : AIOracle) (now : Int),
        analyzeLogs (some cfg) (.ok lines) oracle now = .ok none) := by
  refine ⟨?_, ?_, ?_⟩
  · intro hf
    rw [getPodLogs_ok, hf]
    rfl
  · intro line
    simp [filterErrorLines, List.mem_filter]
  · intro hen hf hnone oracle now
    have hempty : filterErrorLines lines = [] := by
      apply List.filter_eq_nil_iff.2
      intro line hline
      simp only [Bool.not_eq_true]
      have := hnone line hline
      simpa using this
    simp [analyzeLogs, hen, getPodLogs_ok, hf, hempty]

/-- C10 witness: three keyword-free lines are all dropped and the pipeline
yields no diagnosis and no error. -/
theorem filter_defaults_and_keywords_witness :
    getPodLogs c9Config (.ok c10QuietLines) = .ok (filterErrorLines c10QuietLines) ∧
    filterErrorLines c10QuietLines = [] ∧
    analyzeLogs (some c9Config) (.ok c10QuietLines) {} 0 = .ok none := by
  have h := filter_defaults_and_keywords c9Config c10QuietLines
  refine ⟨h.1 rfl, by decide, ?_⟩
  exact h.2.2 rfl rfl (by decide) {} 0
